import Mathlib

/-!
Verification of the DataFusion execution runtime environment layer
(`datafusion/core/src/execution/runtime_env.rs`): the `RuntimeConfig`
builder and the `RuntimeEnv` constructor.

The file embeds the source shallowly.  The collaborators that the file
consumes but does not define (the disk manager, the two memory-pool
implementations, and Rust's `f64 as usize` cast) are modelled from the
specification's contracts, each marked in its doc comment.
-/

namespace DF

/-- The maximum value of Rust's `usize` on a 64-bit platform. -/
def usizeMax : Nat := 2 ^ 64 - 1

/-- Modelled from the spec: the disk-manager mode carried by the config,
with its two variants — "use OS temp directories" (the default) and
"use exactly this list of directories".  The type itself lives in the
repository's `disk_manager` module, which is not part of the analysed
source file. -/
inductive DiskManagerConfig : Type where
  | newOs : DiskManagerConfig
  | newSpecified (dirs : List String) : DiskManagerConfig
deriving DecidableEq, Repr

/-- Modelled from the spec: `DiskManagerConfig::new_specified`, the
constructor for the "restricted to an explicit directory list" mode. -/
def DiskManagerConfig.new_specified (dirs : List String) : DiskManagerConfig :=
  DiskManagerConfig.newSpecified dirs

/-- Modelled from the spec: a constructed disk manager, remembering the
mode it was built from (it "allocates uniquely named spill files" in the
directories that mode names). -/
structure DiskManager : Type where
  config : DiskManagerConfig
deriving DecidableEq, Repr

/-- The ambient file-system state that disk-manager construction depends
on: whether the OS temp directory is available, and which explicitly
named directories are valid and writable. -/
structure FsEnv : Type where
  osTempOk : Bool
  validDir : String → Bool

/-- Modelled from the spec: `DiskManager::try_new` — "given a mode …
yields a manager"; "construction may fail if a specified directory is
invalid or unwritable".  The default OS mode may in principle also fail
(the spec discusses this hypothetical for `default()`), which the
`osTempOk` flag captures. -/
def DiskManager.tryNew (fs : FsEnv) : DiskManagerConfig → Except String DiskManager
  | DiskManagerConfig.newOs =>
      if fs.osTempOk then Except.ok ⟨DiskManagerConfig.newOs⟩
      else Except.error "Runtime error: failed to create OS temp directory"
  | DiskManagerConfig.newSpecified dirs =>
      if dirs.all fs.validDir then Except.ok ⟨DiskManagerConfig.newSpecified dirs⟩
      else Except.error "Runtime error: invalid or unwritable local directory"

/-- Modelled from Rust's `f64`: a floating-point value is NaN, an
infinity, or a finite value, idealised here as an exact rational (the
rounding of individual `f64` operations is not modelled; every concrete
number used below is exactly representable). -/
inductive F64 : Type where
  | nan : F64
  | inf : F64
  | negInf : F64
  | finite (q : ℚ) : F64
deriving DecidableEq

/-- Modelled from Rust's `f64` semantics: `(m as f64) * f` for a `usize`
value `m` (the cast of `m` to `f64` is idealised as exact). -/
def mulNatF64 (m : Nat) : F64 → F64
  | F64.nan => F64.nan
  | F64.inf => if m = 0 then F64.nan else F64.inf
  | F64.negInf => if m = 0 then F64.nan else F64.negInf
  | F64.finite q => F64.finite ((m : ℚ) * q)

/-- Modelled from Rust's `as usize` cast on `f64` (saturating since Rust
1.45): NaN and everything below zero give `0`, everything above
`usize::MAX` gives `usize::MAX`, and a finite in-range value is
truncated toward zero. -/
def f64AsUsize : F64 → Nat
  | F64.nan => 0
  | F64.negInf => 0
  | F64.inf => usizeMax
  | F64.finite q => if q < 0 then 0 else min (Int.toNat ⌊q⌋) usizeMax

/-- Modelled from the spec: the memory-pool capability consumed by this
layer.  The layer depends on exactly two construction paths — the
default unbounded pool and the greedy pool with a byte ceiling — plus
arbitrary caller-supplied pools (`custom`, tagged so that distinct
caller pools stay distinct). -/
inductive MemoryPool : Type where
  | unbounded : MemoryPool
  | greedy (pool_size : Nat) : MemoryPool
  | custom (id : Nat) : MemoryPool
deriving DecidableEq, Repr

/-- `RuntimeConfig` (source, `runtime_env.rs`): the disk-manager mode
and the optional memory-pool override. -/
structure RuntimeConfig : Type where
  disk_manager : DiskManagerConfig
  memory_pool : Option MemoryPool
deriving DecidableEq, Repr

/-- `RuntimeConfig::new` — `Default::default()`: default disk-manager
mode (OS temp directories) and no memory-pool override. -/
def RuntimeConfig.new : RuntimeConfig :=
  ⟨DiskManagerConfig.newOs, none⟩

/-- `RuntimeConfig::with_disk_manager` (source): replace the
disk-manager mode. -/
def RuntimeConfig.with_disk_manager (c : RuntimeConfig)
    (d : DiskManagerConfig) : RuntimeConfig :=
  ⟨d, c.memory_pool⟩

/-- `RuntimeConfig::with_memory_pool` (source): install the given pool
as the override. -/
def RuntimeConfig.with_memory_pool (c : RuntimeConfig)
    (p : MemoryPool) : RuntimeConfig :=
  ⟨c.disk_manager, some p⟩

/-- `RuntimeConfig::with_memory_limit` (source):
`pool_size = (max_memory as f64 * memory_fraction) as usize`, then
install a `GreedyMemoryPool` of that size. -/
def RuntimeConfig.with_memory_limit (c : RuntimeConfig)
    (max_memory : Nat) (memory_fraction : F64) : RuntimeConfig :=
  let pool_size := f64AsUsize (mulNatF64 max_memory memory_fraction)
  c.with_memory_pool (MemoryPool.greedy pool_size)

/-- `RuntimeConfig::with_temp_file_path` (source): shorthand for
`with_disk_manager(DiskManagerConfig::new_specified(vec![path]))`. -/
def RuntimeConfig.with_temp_file_path (c : RuntimeConfig)
    (path : String) : RuntimeConfig :=
  c.with_disk_manager (DiskManagerConfig.new_specified [path])

/-- `RuntimeEnv` (source): the resolved memory pool and disk manager. -/
structure RuntimeEnv : Type where
  memory_pool : MemoryPool
  disk_manager : DiskManager
deriving DecidableEq, Repr

/-- `RuntimeEnv::new` (source): resolve the pool with
`unwrap_or_else(UnboundedMemoryPool::default)`, then build the disk
manager with `DiskManager::try_new(disk_manager)?`. -/
def RuntimeEnv.new (fs : FsEnv) (config : RuntimeConfig) :
    Except String RuntimeEnv :=
  let memory_pool := config.memory_pool.getD MemoryPool.unbounded
  match DiskManager.tryNew fs config.disk_manager with
  | Except.ok dm => Except.ok ⟨memory_pool, dm⟩
  | Except.error e => Except.error e

/-- `impl Default for RuntimeEnv` (source):
`RuntimeEnv::new(RuntimeConfig::new()).unwrap()`.  The `unwrap` panic on
the error branch is modelled as `none` (the function does not return
normally). -/
def RuntimeEnv.defaultEnv (fs : FsEnv) : Option RuntimeEnv :=
  match RuntimeEnv.new fs RuntimeConfig.new with
  | Except.ok e => some e
  | Except.error _ => none

/-- `impl Debug for RuntimeEnv` (source): `write!(f, "RuntimeEnv")`. -/
def RuntimeEnv.debugFmt (_e : RuntimeEnv) : String :=
  "RuntimeEnv"

/-- The ceiling of the config's pool override when that override is a
greedy pool. -/
def RuntimeConfig.greedyCeiling (c : RuntimeConfig) : Option Nat :=
  match c.memory_pool with
  | some (MemoryPool.greedy n) => some n
  | _ => none

/-- A file system in which every directory is valid and the OS temp
directory is available. -/
def fsAll : FsEnv :=
  ⟨true, fun _ => true⟩

/-- A file system in which nothing is available, so every disk-manager
construction fails. -/
def fsNone : FsEnv :=
  ⟨false, fun _ => false⟩

/-- Modelled from the spec: the mutable accounting state of one memory
pool object — the bytes currently reserved ("accounting abstraction
tracking byte usage"). -/
structure PoolState : Type where
  reserved : Nat
deriving DecidableEq, Repr

/-- Modelled from Rust `Arc` sharing: the heap of live pool objects; an
`Arc<dyn MemoryPool>` is an index into it. -/
structure PoolHeap : Type where
  pools : Nat → PoolState

/-- A runtime-env value as held by one operator: two `Arc` pointers
(heap indices), as in the `RuntimeEnv` struct. -/
structure RuntimeEnvHandle : Type where
  memory_pool : Nat
  disk_manager : Nat
deriving DecidableEq, Repr

/-- The derived `Clone` for `RuntimeEnv`: clones each `Arc`, i.e. copies
the pointers, not the pointed-to objects. -/
def RuntimeEnvHandle.clone (e : RuntimeEnvHandle) : RuntimeEnvHandle :=
  ⟨e.memory_pool, e.disk_manager⟩

/-- Modelled from the spec: recording an allocation of `n` bytes against
the pool object at heap index `i`. -/
def PoolHeap.grow (h : PoolHeap) (i : Nat) (n : Nat) : PoolHeap :=
  ⟨fun j => if j = i then ⟨(h.pools j).reserved + n⟩ else h.pools j⟩

/-- The accounting state observed through a pool pointer. -/
def PoolHeap.reservedAt (h : PoolHeap) (i : Nat) : Nat :=
  (h.pools i).reserved

/-- A single builder call that installs a memory pool: either
`with_memory_pool` or `with_memory_limit`. -/
inductive PoolCall : Type where
  | pool (p : MemoryPool) : PoolCall
  | limit (max_memory : Nat) (fraction : F64) : PoolCall

/-- Apply one pool-installing builder call. -/
def applyPoolCall (c : RuntimeConfig) : PoolCall → RuntimeConfig
  | PoolCall.pool p => c.with_memory_pool p
  | PoolCall.limit m f => c.with_memory_limit m f

/-- Apply a chain of pool-installing builder calls, left to right. -/
def applyPoolCalls (c : RuntimeConfig) (ks : List PoolCall) : RuntimeConfig :=
  ks.foldl applyPoolCall c

/-- The pool a single call installs does not depend on the config it is
applied to, and the call leaves the disk-manager mode alone. -/
theorem applyPoolCall_shape (c : RuntimeConfig) (k : PoolCall) :
    applyPoolCall c k = ⟨c.disk_manager, (applyPoolCall RuntimeConfig.new k).memory_pool⟩ := by
  cases k <;> rfl

/-- Pool-installing calls never touch the disk-manager mode. -/
theorem applyPoolCalls_disk_manager (c : RuntimeConfig) (ks : List PoolCall) :
    (applyPoolCalls c ks).disk_manager = c.disk_manager := by
  induction ks generalizing c with
  | nil => rfl
  | cons k ks ih =>
      show (applyPoolCalls (applyPoolCall c k) ks).disk_manager = c.disk_manager
      rw [ih]
      cases k <;> rfl

/-- C1: `RuntimeEnv::new` resolves the memory pool from the config's
override when present (the env's pool is that very handle), otherwise
uses the default unbounded pool; `new(RuntimeConfig::new())` yields an
unbounded pool and an OS-temp-directory disk manager. -/
theorem c1_new_resolves_memory_pool (fs : FsEnv) (c : RuntimeConfig)
    (e : RuntimeEnv) (h : RuntimeEnv.new fs c = Except.ok e) :
    (∀ p, c.memory_pool = some p → e.memory_pool = p) ∧
    (c.memory_pool = none → e.memory_pool = MemoryPool.unbounded) ∧
    (c = RuntimeConfig.new →
      e.memory_pool = MemoryPool.unbounded ∧
      e.disk_manager.config = DiskManagerConfig.newOs) := by
  unfold RuntimeEnv.new at h
  cases hdm : DiskManager.tryNew fs c.disk_manager with
  | error msg => rw [hdm] at h; exact absurd h (by simp)
  | ok dm =>
      rw [hdm] at h
      simp only [Except.ok.injEq] at h
      subst h
      refine ⟨fun p hp => by simp [hp], fun hp => by simp [hp], fun hc => ?_⟩
      subst hc
      unfold DiskManager.tryNew at hdm
      simp only [RuntimeConfig.new] at hdm ⊢
      cases hos : fs.osTempOk with
      | false => rw [hos] at hdm; exact absurd hdm (by simp)
      | true =>
          rw [hos] at hdm
          simp only [if_true, Except.ok.injEq] at hdm
          subst hdm
          exact ⟨rfl, rfl⟩

/-- Witness for C1 at a concrete file system and the default config. -/
theorem c1_new_resolves_memory_pool_witness :
    RuntimeEnv.new fsAll RuntimeConfig.new =
      Except.ok ⟨MemoryPool.unbounded, ⟨DiskManagerConfig.newOs⟩⟩ ∧
    (⟨MemoryPool.unbounded, ⟨DiskManagerConfig.newOs⟩⟩ : RuntimeEnv).memory_pool =
      MemoryPool.unbounded ∧
    (⟨MemoryPool.unbounded, ⟨DiskManagerConfig.newOs⟩⟩ : RuntimeEnv).disk_manager.config =
      DiskManagerConfig.newOs :=
  ⟨rfl,
   (c1_new_resolves_memory_pool fsAll RuntimeConfig.new _ rfl).2.2 rfl⟩

/-- C3: `RuntimeEnv::new` errors exactly when disk-manager construction
errors (with the very same error), and on success the produced env holds
the constructed disk manager — construction is all-or-nothing. -/
theorem c3_error_iff_disk_manager_fails (fs : FsEnv) (c : RuntimeConfig) :
    (∀ msg, RuntimeEnv.new fs c = Except.error msg ↔
      DiskManager.tryNew fs c.disk_manager = Except.error msg) ∧
    (∀ e, RuntimeEnv.new fs c = Except.ok e →
      DiskManager.tryNew fs c.disk_manager = Except.ok e.disk_manager) := by
  constructor
  · intro msg
    unfold RuntimeEnv.new
    cases hdm : DiskManager.tryNew fs c.disk_manager with
    | error m => simp
    | ok dm => simp
  · intro e h
    unfold RuntimeEnv.new at h
    cases hdm : DiskManager.tryNew fs c.disk_manager with
    | error m => rw [hdm] at h; exact absurd h (by simp)
    | ok dm =>
        rw [hdm] at h
        simp only [Except.ok.injEq] at h
        subst h
        rfl

/-- Witness for C3: a file system where construction fails makes `new`
return that failure, and a working one makes it succeed. -/
theorem c3_error_iff_disk_manager_fails_witness :
    RuntimeEnv.new fsNone RuntimeConfig.new =
      Except.error "Runtime error: failed to create OS temp directory" ∧
    DiskManager.tryNew fsAll RuntimeConfig.new.disk_manager =
      Except.ok ⟨DiskManagerConfig.newOs⟩ :=
  ⟨((c3_error_iff_disk_manager_fails fsNone RuntimeConfig.new).1
      "Runtime error: failed to create OS temp directory").mpr rfl,
   (c3_error_iff_disk_manager_fails fsAll RuntimeConfig.new).2 _ rfl⟩

/-- C4: `default()` agrees with `new(RuntimeConfig::new())` whenever the
latter succeeds; when it fails, `default()` does not return normally
(modelled as `none`). -/
theorem c4_default_equiv_new (fs : FsEnv) :
    (∀ e, RuntimeEnv.new fs RuntimeConfig.new = Except.ok e →
      RuntimeEnv.defaultEnv fs = some e) ∧
    (∀ msg, RuntimeEnv.new fs RuntimeConfig.new = Except.error msg →
      RuntimeEnv.defaultEnv fs = none) := by
  constructor
  · intro e h; unfold RuntimeEnv.defaultEnv; rw [h]
  · intro msg h; unfold RuntimeEnv.defaultEnv; rw [h]

/-- Witness for C4: the success branch on a working file system and the
panic branch on a broken one. -/
theorem c4_default_equiv_new_witness :
    RuntimeEnv.defaultEnv fsAll =
      some ⟨MemoryPool.unbounded, ⟨DiskManagerConfig.newOs⟩⟩ ∧
    RuntimeEnv.defaultEnv fsNone = none :=
  ⟨(c4_default_equiv_new fsAll).1 _ rfl,
   (c4_default_equiv_new fsNone).2
     "Runtime error: failed to create OS temp directory" rfl⟩

/-- C5: last write wins — a second `with_disk_manager` erases the first,
and after any chain of pool-installing calls only the last call's pool is
effective. -/
theorem c5_last_write_wins (c : RuntimeConfig) (m1 m2 : DiskManagerConfig)
    (ks : List PoolCall) (k : PoolCall) :
    (c.with_disk_manager m1).with_disk_manager m2 = c.with_disk_manager m2 ∧
    applyPoolCalls c (ks ++ [k]) = applyPoolCall c k := by
  refine ⟨rfl, ?_⟩
  show (ks ++ [k]).foldl applyPoolCall c = applyPoolCall c k
  rw [List.foldl_append]
  show applyPoolCall (applyPoolCalls c ks) k = applyPoolCall c k
  rw [applyPoolCall_shape (applyPoolCalls c ks) k, applyPoolCall_shape c k,
    applyPoolCalls_disk_manager]

/-- C6: each mutator replaces exactly one field and leaves the other
unchanged, purely functionally. -/
theorem c6_mutators_frame (c : RuntimeConfig) (d : DiskManagerConfig)
    (p : MemoryPool) (m : Nat) (f : F64) (path : String) :
    ((c.with_disk_manager d).disk_manager = d ∧
      (c.with_disk_manager d).memory_pool = c.memory_pool) ∧
    ((c.with_memory_pool p).memory_pool = some p ∧
      (c.with_memory_pool p).disk_manager = c.disk_manager) ∧
    ((c.with_memory_limit m f).memory_pool =
        some (MemoryPool.greedy (f64AsUsize (mulNatF64 m f))) ∧
      (c.with_memory_limit m f).disk_manager = c.disk_manager) ∧
    ((c.with_temp_file_path path).disk_manager =
        DiskManagerConfig.newSpecified [path] ∧
      (c.with_temp_file_path path).memory_pool = c.memory_pool) :=
  ⟨⟨rfl, rfl⟩, ⟨rfl, rfl⟩, ⟨rfl, rfl⟩, ⟨rfl, rfl⟩⟩

/-- C7: the derived clone of a `RuntimeEnv` copies the `Arc` pointers,
so both handles point at the same pool object and an allocation recorded
through one is observed through the other. -/
theorem c7_clone_shares_pool (h : PoolHeap) (e : RuntimeEnvHandle) (n : Nat) :
    (RuntimeEnvHandle.clone e).memory_pool = e.memory_pool ∧
    (RuntimeEnvHandle.clone e).disk_manager = e.disk_manager ∧
    PoolHeap.reservedAt (h.grow e.memory_pool n)
        (RuntimeEnvHandle.clone e).memory_pool =
      PoolHeap.reservedAt h e.memory_pool + n :=
  ⟨rfl, rfl, by simp [RuntimeEnvHandle.clone, PoolHeap.grow, PoolHeap.reservedAt]⟩

/-- C8: `with_temp_file_path(P)` sets the mode to the single-directory
list `[P]`, and a successful `new` on that config yields a disk manager
restricted to `[P]`. -/
theorem c8_temp_file_path (c : RuntimeConfig) (p : String) (fs : FsEnv)
    (e : RuntimeEnv)
    (h : RuntimeEnv.new fs (c.with_temp_file_path p) = Except.ok e) :
    (c.with_temp_file_path p).disk_manager =
      DiskManagerConfig.newSpecified [p] ∧
    e.disk_manager.config = DiskManagerConfig.newSpecified [p] := by
  refine ⟨rfl, ?_⟩
  unfold RuntimeEnv.new at h
  cases hdm : DiskManager.tryNew fs (c.with_temp_file_path p).disk_manager with
  | error m => rw [hdm] at h; exact absurd h (by simp)
  | ok dm =>
      rw [hdm] at h
      simp only [Except.ok.injEq] at h
      subst h
      unfold DiskManager.tryNew at hdm
      by_cases hv : List.all [p] fs.validDir
      · simp only [RuntimeConfig.with_temp_file_path, RuntimeConfig.with_disk_manager,
          DiskManagerConfig.new_specified, hv, if_true, Except.ok.injEq] at hdm
        rw [← hdm]
      · simp only [RuntimeConfig.with_temp_file_path, RuntimeConfig.with_disk_manager,
          DiskManagerConfig.new_specified, hv, if_false] at hdm
        simp at hdm

/-- Witness for C8 at a concrete path on a working file system. -/
theorem c8_temp_file_path_witness :
    (RuntimeConfig.new.with_temp_file_path "/tmp/spill").disk_manager =
      DiskManagerConfig.newSpecified ["/tmp/spill"] ∧
    RuntimeEnv.new fsAll (RuntimeConfig.new.with_temp_file_path "/tmp/spill") =
      Except.ok ⟨MemoryPool.unbounded, ⟨DiskManagerConfig.newSpecified ["/tmp/spill"]⟩⟩ :=
  ⟨(c8_temp_file_path RuntimeConfig.new "/tmp/spill" fsAll _ rfl).1, rfl⟩

/-- The saturating cast agrees with the floor when the finite value lies
in `[0, usize::MAX]`. -/
theorem f64AsUsize_finite_of_mem (q : ℚ) (h0 : 0 ≤ q)
    (h1 : q ≤ (usizeMax : ℚ)) :
    f64AsUsize (F64.finite q) = Int.toNat ⌊q⌋ := by
  simp only [f64AsUsize]
  rw [if_neg (not_lt.mpr h0)]
  apply min_eq_left
  have hf : ⌊q⌋ ≤ (usizeMax : ℤ) := by
    have h := Int.floor_le_floor h1
    rwa [Int.floor_natCast] at h
  omega

/-- C2 counterexample: at `max_bytes = 1000`, `fraction = -0.5`, the code
installs a pool with ceiling `0`, whereas
`floor(max_bytes * fraction) = -500`. -/
theorem c2_ceiling_counterexample :
    RuntimeConfig.greedyCeiling
        (RuntimeConfig.new.with_memory_limit 1000 (F64.finite (-(1 : ℚ) / 2))) =
      some 0 ∧
    ⌊(1000 : ℚ) * (-(1 : ℚ) / 2)⌋ = (-500 : ℤ) ∧ (0 : ℤ) ≠ -500 := by
  refine ⟨?_, ?_, by norm_num⟩
  · show RuntimeConfig.greedyCeiling
      ⟨DiskManagerConfig.newOs,
        some (MemoryPool.greedy
          (f64AsUsize (F64.finite ((1000 : ℚ) * (-(1 : ℚ) / 2)))))⟩ = some 0
    simp only [f64AsUsize]
    rw [if_pos (by norm_num)]
    rfl
  · have h : (1000 : ℚ) * (-(1 : ℚ) / 2) = ((-500 : ℤ) : ℚ) := by norm_num
    rw [h, Int.floor_intCast]

/-- C2 amended: `with_memory_limit(max_bytes, fraction)` installs a
greedy pool whose ceiling is the saturating cast of
`max_bytes * fraction`, overwriting any prior pool override; whenever
the product lies in `[0, usize::MAX]` the ceiling equals
`floor(max_bytes * fraction)` exactly (so 500 at `(1000, 0.5)` and 0 at
`(0, 1.0)`), but a negative product saturates to 0 instead of the
floor. -/
theorem c2_with_memory_limit_ceiling (c : RuntimeConfig) (max_memory : Nat)
    (q : ℚ) (h0 : 0 ≤ (max_memory : ℚ) * q)
    (h1 : (max_memory : ℚ) * q ≤ (usizeMax : ℚ)) :
    (c.with_memory_limit max_memory (F64.finite q)).memory_pool =
      some (MemoryPool.greedy (Int.toNat ⌊(max_memory : ℚ) * q⌋)) := by
  show some (MemoryPool.greedy
      (f64AsUsize (F64.finite ((max_memory : ℚ) * q)))) = _
  rw [f64AsUsize_finite_of_mem _ h0 h1]

/-- Witness for amended C2: ceiling 500 at `(1000, 0.5)` and ceiling 0
at `(0, 1.0)`. -/
theorem c2_with_memory_limit_ceiling_witness :
    (0 : ℚ) ≤ (1000 : ℚ) * (1 / 2) ∧
    (RuntimeConfig.new.with_memory_limit 1000 (F64.finite (1 / 2))).memory_pool =
      some (MemoryPool.greedy 500) ∧
    (RuntimeConfig.new.with_memory_limit 0 (F64.finite 1)).memory_pool =
      some (MemoryPool.greedy 0) := by
  refine ⟨by norm_num, ?_, ?_⟩
  · have h := c2_with_memory_limit_ceiling RuntimeConfig.new 1000 (1 / 2)
      (by norm_num) (by norm_num [usizeMax])
    rw [h]
    have hq : ((1000 : Nat) : ℚ) * (1 / 2) = ((500 : ℤ) : ℚ) := by norm_num
    rw [hq, Int.floor_intCast]
    rfl
  · have h := c2_with_memory_limit_ceiling RuntimeConfig.new 0 1
      (by norm_num) (by norm_num [usizeMax])
    rw [h]
    have hq : ((0 : Nat) : ℚ) * 1 = ((0 : ℤ) : ℚ) := by norm_num
    rw [hq, Int.floor_intCast]
    rfl

/-- C10: the float-to-usize conversion in `with_memory_limit` saturates:
a NaN product or a negative product gives ceiling 0, and a product above
`usize::MAX` gives ceiling `usize::MAX`; the call succeeds in every
case. -/
theorem c10_cast_saturates (c : RuntimeConfig) (max_memory : Nat) :
    (c.with_memory_limit max_memory F64.nan).memory_pool =
      some (MemoryPool.greedy 0) ∧
    (∀ q : ℚ, (max_memory : ℚ) * q < 0 →
      (c.with_memory_limit max_memory (F64.finite q)).memory_pool =
        some (MemoryPool.greedy 0)) ∧
    (∀ q : ℚ, (usizeMax : ℚ) < (max_memory : ℚ) * q →
      (c.with_memory_limit max_memory (F64.finite q)).memory_pool =
        some (MemoryPool.greedy usizeMax)) := by
  refine ⟨rfl, fun q hq => ?_, fun q hq => ?_⟩
  · show some (MemoryPool.greedy
        (f64AsUsize (F64.finite ((max_memory : ℚ) * q)))) = _
    simp only [f64AsUsize]
    rw [if_pos hq]
  · show some (MemoryPool.greedy
        (f64AsUsize (F64.finite ((max_memory : ℚ) * q)))) = _
    simp only [f64AsUsize]
    have h0 : (0 : ℚ) ≤ (max_memory : ℚ) * q :=
      le_trans (Nat.cast_nonneg usizeMax) hq.le
    rw [if_neg (not_lt.mpr h0)]
    have hf : (usizeMax : ℤ) ≤ ⌊(max_memory : ℚ) * q⌋ := by
      apply Int.le_floor.mpr
      exact_mod_cast hq.le
    have ht : usizeMax ≤ Int.toNat ⌊(max_memory : ℚ) * q⌋ := by omega
    rw [min_eq_right ht]

/-- Witness for C10: concrete NaN, negative and oversized products. -/
theorem c10_cast_saturates_witness :
    (RuntimeConfig.new.with_memory_limit 1000 F64.nan).memory_pool =
      some (MemoryPool.greedy 0) ∧
    (RuntimeConfig.new.with_memory_limit 1000 (F64.finite (-1))).memory_pool =
      some (MemoryPool.greedy 0) ∧
    (RuntimeConfig.new.with_memory_limit 1 (F64.finite (2 ^ 65))).memory_pool =
      some (MemoryPool.greedy usizeMax) :=
  ⟨(c10_cast_saturates RuntimeConfig.new 1000).1,
   (c10_cast_saturates RuntimeConfig.new 1000).2.1 (-1) (by norm_num),
   (c10_cast_saturates RuntimeConfig.new 1).2.2 (2 ^ 65) (by norm_num [usizeMax])⟩

/-- C9: the Debug rendering of a `RuntimeEnv` is the fixed label
`"RuntimeEnv"`, independent of its fields. -/
theorem c9_debug_opaque (e1 e2 : RuntimeEnv) :
    RuntimeEnv.debugFmt e1 = "RuntimeEnv" ∧
    RuntimeEnv.debugFmt e1 = RuntimeEnv.debugFmt e2 :=
  ⟨rfl, rfl⟩

end DF
